import Mathlib

/-!
Shallow embedding of `src/git_ops.rs` (gh-autopr) and verification of the
specification's claims about it.

Modelling conventions:
* Every external command execution (`Command::new(..).output()`) is modelled
  by passing the function the `CmdOutput` value that execution would produce,
  one parameter per command the Rust function may run, in program order.
* Each embedded function returns the Rust function's result together with an
  `Effects` record: the argv of every command actually issued (in order), the
  `app.add_log` entries, the `app.add_error` entries, the messages rendered
  via `render_message`, and the directories changed to via `set_current_dir`.
* `Result<T, Box<dyn Error>>` becomes `Outcome T`: `ok`, `err` (early return
  with an error), or `exited` (`std::process::exit`, which never returns).
* `String::from_utf8(bytes)?` is modelled by `stdout : Option String`:
  `none` means the bytes do not decode as UTF-8 text, so the `?` propagates a
  decode error (modelled as `Outcome.err "invalid utf-8"`).  `stderr` is read
  with `from_utf8_lossy`, which always succeeds, so it is a plain string.
* Rust `str::trim` is `rustTrim` (strip whitespace from both ends); Rust
  `str::trim_start_matches(pat)` is `rustTrimStartMatches`, which removes the
  pattern *repeatedly* as long as it is a prefix, exactly as in Rust.
  (Rust trims Unicode `White_Space`; `Char.isWhitespace` covers the ASCII
  subset, which is what every branch name and diff in scope uses.)
-/

/-- Result of one external command, as seen through `std::process::Output`:
exit-status success flag, stdout (`none` = not decodable as UTF-8 text),
and stderr (already decoded lossily). -/
structure CmdOutput where
  success : Bool
  stdout : Option String
  stderr : String
deriving DecidableEq, Repr

/-- Result of a Rust function in `git_ops.rs`: normal return (`ok`),
early `return Err(..)` (`err`, carrying the error message), or process
termination via `std::process::exit` (`exited`, carrying the exit code). -/
inductive Outcome (α : Type) where
  | ok : α → Outcome α
  | err : String → Outcome α
  | exited : Nat → Outcome α
deriving DecidableEq, Repr

/-- Observable side effects of a run of one `git_ops.rs` function:
`cmds` is the argv of each command issued, in order; `logs` the
`(level, message)` pairs passed to `app.add_log`; `errors` the messages
passed to `app.add_error`; `rendered` the `(title, message)` pairs passed to
`render_message`; `chdirs` the directories passed to `set_current_dir`
that succeeded. -/
structure Effects where
  cmds : List (List String)
  logs : List (String × String)
  errors : List String
  rendered : List (String × String)
  chdirs : List String
deriving DecidableEq, Repr

/-- The empty effect record (no commands, logs, errors, renders, chdirs). -/
def Effects.empty : Effects := ⟨[], [], [], [], []⟩

/-- Whitespace predicate used by `trim`. -/
def isRustWhitespace (c : Char) : Bool := c.isWhitespace

/-- Rust `str::trim`: remove whitespace characters from both ends. -/
def rustTrim (s : String) : String :=
  String.mk (((s.data.dropWhile isRustWhitespace).reverse.dropWhile isRustWhitespace).reverse)

/-- Worker for `rustTrimStartMatches`: repeatedly remove the prefix `pre`
from the front of `s` while it matches.  The fuel argument (instantiated
with `s.length`, an upper bound on the number of removals since each
removal shortens the list) makes the recursion structural. -/
def stripPrefixAllFuel : Nat → List Char → List Char → List Char
  | 0, _, s => s
  | fuel+1, pre, s =>
      if !pre.isEmpty && pre.isPrefixOf s then
        stripPrefixAllFuel fuel pre (s.drop pre.length)
      else s

/-- Rust `str::trim_start_matches(pre)`: remove *all* repetitions of the
pattern `pre` from the start of `s` (Rust removes the matching prefix
repeatedly, not just once). -/
def rustTrimStartMatches (pre s : String) : String :=
  String.mk (stripPrefixAllFuel s.data.length pre.data s.data)

/-- Argv of the repository-presence check (`git_ensure_in_repo`). -/
def cmdInRepo : List String := ["git", "rev-parse", "--is-inside-work-tree"]

/-- Argv of the repository-top-level query (`git_cd_to_repo_root`). -/
def cmdToplevel : List String := ["git", "rev-parse", "--show-toplevel"]

/-- Argv of the staged-diff command (`git_diff_uncommitted`, first tier). -/
def cmdDiffCached : List String := ["git", "diff", "--cached", "--", ".", ":!*.lock"]

/-- Argv of the working-tree diff command (`git_diff_uncommitted`, second tier). -/
def cmdDiffWorking : List String := ["git", "diff", "--", ".", ":!*.lock"]

/-- Argv of the cross-branch diff command (`git_diff_between_branches`). -/
def cmdDiffBranches (main_branch current_branch : String) : List String :=
  ["git", "diff", main_branch ++ "..." ++ current_branch, "--", ":!*.lock"]

/-- Argv of the default-branch read (`git_main_branch`). -/
def cmdOriginHead : List String := ["git", "rev-parse", "--abbrev-ref", "origin/HEAD"]

/-- Argv of the remote auto-detect fallback (`git_main_branch`). -/
def cmdSetHead : List String := ["git", "remote", "set-head", "origin", "--auto"]

/-- Argv of the current-branch read (`git_current_branch`). -/
def cmdCurrentBranch : List String := ["git", "rev-parse", "--abbrev-ref", "HEAD"]

/-- Argv of the pull command (`git_fetch_main`, on-main case). -/
def cmdPull : List String := ["git", "pull", "origin"]

/-- Argv of the fetch command with the two-sided refspec
(`git_fetch_main`, off-main case). -/
def cmdFetch (main_branch : String) : List String :=
  ["git", "fetch", "origin", main_branch ++ ":" ++ main_branch]

/-- Argv of the stage-all command (`git_stage_and_commit`). -/
def cmdAdd : List String := ["git", "add", "."]

/-- Argv of the commit command (`git_stage_and_commit`). -/
def cmdCommit (msg : String) : List String := ["git", "commit", "-m", msg]

/-- Argv of the push command (`git_push_branch`). -/
def cmdPush (branch_name : String) : List String := ["git", "push", "origin", branch_name]

/-- Argv of the forge-client publish command (`create_pull_request`). -/
def cmdPrCreate (title body : String) : List String :=
  ["gh", "pr", "create", "--title", title, "--body", body]

/-- The detached-head message logged and rendered by
`git_ensure_not_detached_head`. -/
def detachedMsg : String := "Detached HEAD state detected. Please check out a branch."

/-- `git_ensure_in_repo` (git_ops.rs:6-17): run the repository-presence
check; on non-zero exit, log an ERROR and terminate the process with
status 1; otherwise return `Ok(())`. -/
def git_ensure_in_repo (o : CmdOutput) : Outcome Unit × Effects :=
  if !o.success then
    (.exited 1, ⟨[cmdInRepo], [("ERROR", "Not in a git repository.")], [], [], []⟩)
  else
    (.ok (), ⟨[cmdInRepo], [], [], [], []⟩)

/-- `git_ensure_not_detached_head` (git_ops.rs:19-38): if the branch name is
the sentinel `"HEAD"`, log an ERROR, render a blocking message (the `?` on
`render_message` propagates a renderer error, modelled by the `render`
parameter), and terminate with status 1; otherwise do nothing.  No external
command is run. -/
def git_ensure_not_detached_head (render : Except String Unit) (branch_name : String) :
    Outcome Unit × Effects :=
  if branch_name == "HEAD" then
    match render with
    | .error e => (.err e, ⟨[], [("ERROR", detachedMsg)], [], [], []⟩)
    | .ok _ => (.exited 1, ⟨[], [("ERROR", detachedMsg)], [], [("Error", detachedMsg)], []⟩)
  else
    (.ok (), Effects.empty)

/-- `git_cd_to_repo_root` (git_ops.rs:40-55): query the repository top level;
on success decode stdout, trim it, change directory there (the `chdir`
parameter models `std::env::set_current_dir`, which can itself fail), and
log at INFO; on command failure only record stderr through `add_error` and
still return `Ok(())`. -/
def git_cd_to_repo_root (o : CmdOutput) (chdir : String → Except String Unit) :
    Outcome Unit × Effects :=
  if o.success then
    match o.stdout with
    | none => (.err "invalid utf-8", ⟨[cmdToplevel], [], [], [], []⟩)
    | some s =>
        let repo_root := rustTrim s
        match chdir repo_root with
        | .error e => (.err e, ⟨[cmdToplevel], [], [], [], []⟩)
        | .ok _ =>
            (.ok (), ⟨[cmdToplevel],
              [("INFO", "Changed directory to repo root: " ++ repo_root)], [], [], [repo_root]⟩)
  else
    (.ok (), ⟨[cmdToplevel], [], [o.stderr], [], []⟩)

/-- `git_diff_uncommitted` (git_ops.rs:57-83): run the staged diff (lock
files excluded); on non-zero exit forward stderr and fail; otherwise trim
the decoded stdout and, if it is empty, run the working-tree diff under the
same exclusion, with the same failure handling, returning its trimmed
output; if the staged diff was non-empty return it without running the
second command. -/
def git_diff_uncommitted (o1 o2 : CmdOutput) : Outcome String × Effects :=
  if !o1.success then
    (.err "Failed to get diff", ⟨[cmdDiffCached], [], [o1.stderr], [], []⟩)
  else
    match o1.stdout with
    | none => (.err "invalid utf-8", ⟨[cmdDiffCached], [], [], [], []⟩)
    | some s1 =>
        let diff_context := rustTrim s1
        if diff_context = "" then
          if !o2.success then
            (.err "Failed to get diff", ⟨[cmdDiffCached, cmdDiffWorking], [], [o2.stderr], [], []⟩)
          else
            match o2.stdout with
            | none => (.err "invalid utf-8", ⟨[cmdDiffCached, cmdDiffWorking], [], [], [], []⟩)
            | some s2 => (.ok (rustTrim s2), ⟨[cmdDiffCached, cmdDiffWorking], [], [], [], []⟩)
        else
          (.ok diff_context, ⟨[cmdDiffCached], [], [], [], []⟩)

/-- `git_diff_between_branches` (git_ops.rs:85-105): run the triple-dot diff
between the branches (lock files excluded); on non-zero exit forward stderr
and fail; otherwise return the trimmed decoded stdout. -/
def git_diff_between_branches (o : CmdOutput) (main_branch current_branch : String) :
    Outcome String × Effects :=
  if !o.success then
    (.err "Failed to get diff between branches",
      ⟨[cmdDiffBranches main_branch current_branch], [], [o.stderr], [], []⟩)
  else
    match o.stdout with
    | none => (.err "invalid utf-8", ⟨[cmdDiffBranches main_branch current_branch], [], [], [], []⟩)
    | some s => (.ok (rustTrim s), ⟨[cmdDiffBranches main_branch current_branch], [], [], [], []⟩)

/-- Shared tail of `git_main_branch` (git_ops.rs:133-138): decode the stdout
of the successful default-branch read, trim it, strip the `"origin/"`
prefix with `trim_start_matches`, log the result at INFO and return it. -/
def mainBranchFinish (mo : CmdOutput) (cmds : List (List String))
    (logs : List (String × String)) : Outcome String × Effects :=
  match mo.stdout with
  | none => (.err "invalid utf-8", ⟨cmds, logs, [], [], []⟩)
  | some s =>
      let branch := rustTrimStartMatches "origin/" (rustTrim s)
      (.ok branch, ⟨cmds, logs ++ [("INFO", "Determined main branch: " ++ branch)], [], [], []⟩)

/-- `git_main_branch` (git_ops.rs:107-139): read `origin/HEAD`; if that
fails, log at INFO, run the remote auto-detect fallback (failing with
"Failed to set origin HEAD" if it fails, stderr forwarded), then retry the
read once (failing with "Failed to determine main branch" if it fails,
stderr forwarded); finally decode, trim and strip `"origin/"` from the
stdout of the successful read.  `o1` is the first read, `o2` the fallback,
`o3` the retried read. -/
def git_main_branch (o1 o2 o3 : CmdOutput) : Outcome String × Effects :=
  if !o1.success then
    let logs := [("INFO", "Setting origin HEAD automatically...")]
    if !o2.success then
      (.err "Failed to set origin HEAD",
        ⟨[cmdOriginHead, cmdSetHead], logs, [o2.stderr], [], []⟩)
    else if !o3.success then
      (.err "Failed to determine main branch",
        ⟨[cmdOriginHead, cmdSetHead, cmdOriginHead], logs, [o3.stderr], [], []⟩)
    else
      mainBranchFinish o3 [cmdOriginHead, cmdSetHead, cmdOriginHead] logs
  else
    mainBranchFinish o1 [cmdOriginHead] []

/-- `git_current_branch` (git_ops.rs:141-154): read the abbreviated current
branch name; on non-zero exit forward stderr and fail; otherwise return the
trimmed decoded stdout, logging it at INFO. -/
def git_current_branch (o : CmdOutput) : Outcome String × Effects :=
  if !o.success then
    (.err "Failed to get current branch", ⟨[cmdCurrentBranch], [], [o.stderr], [], []⟩)
  else
    match o.stdout with
    | none => (.err "invalid utf-8", ⟨[cmdCurrentBranch], [], [], [], []⟩)
    | some s =>
        let branch := rustTrim s
        (.ok branch, ⟨[cmdCurrentBranch], [("INFO", "Current branch: " ++ branch)], [], [], []⟩)

/-- `git_fetch_main` (git_ops.rs:156-184): if already on the main branch,
pull from origin; otherwise fetch with the two-sided refspec
`main:main`.  Either way, on non-zero exit forward stderr and fail;
on success log at INFO.  `o` is the output of whichever command runs. -/
def git_fetch_main (o : CmdOutput) (current_branch main_branch : String) :
    Outcome Unit × Effects :=
  if current_branch == main_branch then
    if !o.success then
      (.err "Failed to pull from origin", ⟨[cmdPull], [], [o.stderr], [], []⟩)
    else
      (.ok (), ⟨[cmdPull], [("INFO", "Pulled latest changes from origin")], [], [], []⟩)
  else
    if !o.success then
      (.err "Failed to fetch main branch", ⟨[cmdFetch main_branch], [], [o.stderr], [], []⟩)
    else
      (.ok (), ⟨[cmdFetch main_branch],
        [("INFO", "Fetched latest " ++ main_branch ++ " branch")], [], [], []⟩)

/-- Commit message built by `git_stage_and_commit` (git_ops.rs:198-201):
the trimmed title, followed, when details are present, by a blank line and
the trimmed details. -/
def mkCommitMessage (commit_title : String) (commit_details : Option String) : String :=
  match commit_details with
  | none => rustTrim commit_title
  | some details => rustTrim commit_title ++ "\n\n" ++ rustTrim details

/-- `git_stage_and_commit` (git_ops.rs:186-213): stage everything
(`git add .`); on non-zero exit forward stderr and fail; otherwise log,
build the commit message from title and optional details, and commit; on
non-zero exit forward stderr and fail (the staging is not undone);
otherwise log.  `o1` is the stage command, `o2` the commit command. -/
def git_stage_and_commit (o1 o2 : CmdOutput) (commit_title : String)
    (commit_details : Option String) : Outcome Unit × Effects :=
  if !o1.success then
    (.err "Failed to stage changes", ⟨[cmdAdd], [], [o1.stderr], [], []⟩)
  else
    let commit_message := mkCommitMessage commit_title commit_details
    if !o2.success then
      (.err "Failed to commit changes",
        ⟨[cmdAdd, cmdCommit commit_message], [("INFO", "Staged all changes")], [o2.stderr], [], []⟩)
    else
      (.ok (), ⟨[cmdAdd, cmdCommit commit_message],
        [("INFO", "Staged all changes"), ("INFO", "Committed changes successfully")], [], [], []⟩)

/-- `git_push_branch` (git_ops.rs:215-225): push the branch to origin; on
non-zero exit forward stderr and fail; otherwise log at INFO. -/
def git_push_branch (o : CmdOutput) (branch_name : String) : Outcome Unit × Effects :=
  if !o.success then
    (.err "Failed to push branch", ⟨[cmdPush branch_name], [], [o.stderr], [], []⟩)
  else
    (.ok (), ⟨[cmdPush branch_name],
      [("INFO", "Pushed branch " ++ branch_name ++ " to origin")], [], [], []⟩)

/-- `create_pull_request` (git_ops.rs:227-241): invoke the forge client to
open the pull request; on non-zero exit forward stderr and fail; otherwise
log at SUCCESS level. -/
def create_pull_request (o : CmdOutput) (title body : String) : Outcome Unit × Effects :=
  if !o.success then
    (.err "Failed to create pull request", ⟨[cmdPrCreate title body], [], [o.stderr], [], []⟩)
  else
    (.ok (), ⟨[cmdPrCreate title body],
      [("SUCCESS", "Pull request created successfully")], [], [], []⟩)

/-- `k` copies of the list `pre` concatenated. -/
def repList (pre : List Char) : Nat → List Char
  | 0 => []
  | k+1 => pre ++ repList pre k

/-- A true `isPrefixOf` lets the list be split as the pattern followed by
the remainder after dropping the pattern's length. -/
theorem isPrefixOf_append_drop {pre s : List Char} (h : pre.isPrefixOf s = true) :
    pre ++ s.drop pre.length = s := by
  obtain ⟨t, ht⟩ := List.isPrefixOf_iff_prefix.mp h
  subst ht
  simp

/-- Characterisation of the repeated prefix removal: with enough fuel, the
input splits as some number of copies of the (non-empty) pattern followed
by the result, and the pattern is no longer a prefix of the result. -/
theorem stripPrefixAllFuel_spec (pre : List Char) (hpre : pre ≠ []) :
    ∀ (fuel : Nat) (s : List Char), s.length ≤ fuel →
      (∃ k, s = repList pre k ++ stripPrefixAllFuel fuel pre s) ∧
        pre.isPrefixOf (stripPrefixAllFuel fuel pre s) = false := by
  have hne : pre.isEmpty = false := by
    cases pre with
    | nil => exact absurd rfl hpre
    | cons a l => rfl
  have hpos : 0 < pre.length := by
    cases pre with
    | nil => exact absurd rfl hpre
    | cons a l => simp
  intro fuel
  induction fuel with
  | zero =>
      intro s hs
      have hnil : s = [] := List.length_eq_zero.mp (Nat.le_zero.mp hs)
      subst hnil
      refine ⟨⟨0, rfl⟩, ?_⟩
      cases pre with
      | nil => exact absurd rfl hpre
      | cons a l => rfl
  | succ n ih =>
      intro s hs
      by_cases hcond : (!pre.isEmpty && pre.isPrefixOf s) = true
      · have hp : pre.isPrefixOf s = true := (Bool.and_eq_true _ _ |>.mp hcond).2
        have hsplit : pre ++ s.drop pre.length = s := isPrefixOf_append_drop hp
        have hlen : (s.drop pre.length).length ≤ n := by
          rw [List.length_drop]
          omega
        obtain ⟨⟨k, hk⟩, hnp⟩ := ih (s.drop pre.length) hlen
        have hred : stripPrefixAllFuel (n + 1) pre s =
            stripPrefixAllFuel n pre (s.drop pre.length) := by
          simp [stripPrefixAllFuel, hcond]
        refine ⟨⟨k + 1, ?_⟩, ?_⟩
        · rw [hred]
          calc s = pre ++ s.drop pre.length := hsplit.symm
            _ = pre ++ (repList pre k ++ stripPrefixAllFuel n pre (s.drop pre.length)) := by
                  rw [← hk]
            _ = repList pre (k + 1) ++ stripPrefixAllFuel n pre (s.drop pre.length) := by
                  simp [repList]
        · rw [hred]; exact hnp
      · have hred : stripPrefixAllFuel (n + 1) pre s = s := by
          simp only [stripPrefixAllFuel, if_neg hcond]
        have hnp : pre.isPrefixOf s = false := by
          cases hps : pre.isPrefixOf s with
          | false => rfl
          | true => exact absurd (by rw [hne, hps]; rfl) hcond
        refine ⟨⟨0, by rw [hred]; rfl⟩, by rw [hred]; exact hnp⟩

/-- C1.  The claim says `git_main_branch` removes exactly one leading
`"origin/"` segment and leaves a second one intact.  The code uses Rust's
`trim_start_matches`, which removes the prefix repeatedly: on a read whose
stdout is `"origin/origin/main"` the function returns `"main"`, not the
`"origin/main"` the claim predicts. -/
theorem git_main_branch_double_origin_counterexample :
    (git_main_branch ⟨true, some "origin/origin/main", ""⟩ ⟨true, some "", ""⟩
        ⟨true, some "", ""⟩).1 = Outcome.ok "main" ∧
      ("main" : String) ≠ "origin/main" := by
  exact ⟨by decide, by decide⟩

/-- C1 (amended): for every successful run of `git_main_branch`, the
returned branch name is the trimmed stdout of the successful
default-branch read with ALL leading `"origin/"` prefix segments removed
(Rust's `trim_start_matches` semantics): the trimmed stdout splits as some
number of `"origin/"` copies followed by the result, and `"origin/"` is not
a prefix of the result. -/
theorem git_main_branch_strip_spec (o1 o2 o3 : CmdOutput) (r : String)
    (hr : (git_main_branch o1 o2 o3).1 = Outcome.ok r) :
    ∃ s : String, (o1.stdout = some s ∨ o3.stdout = some s) ∧
      (∃ k, (rustTrim s).data = repList ("origin/".data) k ++ r.data) ∧
      ("origin/".data).isPrefixOf r.data = false := by
  have hpre : ("origin/".data) ≠ [] := by decide
  cases h1 : o1.success with
  | true =>
      cases ho : o1.stdout with
      | none => simp [git_main_branch, mainBranchFinish, h1, ho] at hr
      | some s =>
          refine ⟨s, Or.inl rfl, ?_⟩
          simp [git_main_branch, mainBranchFinish, h1, ho] at hr
          have hrdata : r.data =
              stripPrefixAllFuel (rustTrim s).data.length ("origin/".data) (rustTrim s).data := by
            rw [← hr]; rfl
          obtain ⟨⟨k, hk⟩, hnp⟩ := stripPrefixAllFuel_spec ("origin/".data) hpre
            (rustTrim s).data.length (rustTrim s).data (Nat.le_refl _)
          rw [← hrdata] at hk hnp
          exact ⟨⟨k, hk⟩, hnp⟩
  | false =>
      cases h2 : o2.success with
      | false => simp [git_main_branch, h1, h2] at hr
      | true =>
          cases h3 : o3.success with
          | false => simp [git_main_branch, h1, h2, h3] at hr
          | true =>
              cases ho : o3.stdout with
              | none => simp [git_main_branch, mainBranchFinish, h1, h2, h3, ho] at hr
              | some s =>
                  refine ⟨s, Or.inr rfl, ?_⟩
                  simp [git_main_branch, mainBranchFinish, h1, h2, h3, ho] at hr
                  have hrdata : r.data =
                      stripPrefixAllFuel (rustTrim s).data.length ("origin/".data)
                        (rustTrim s).data := by
                    rw [← hr]; rfl
                  obtain ⟨⟨k, hk⟩, hnp⟩ := stripPrefixAllFuel_spec ("origin/".data) hpre
                    (rustTrim s).data.length (rustTrim s).data (Nat.le_refl _)
                  rw [← hrdata] at hk hnp
                  exact ⟨⟨k, hk⟩, hnp⟩

/-- C1 witness: the amended theorem applied to a concrete successful run
whose first read yields `"origin/main"`, returning `"main"`. -/
theorem git_main_branch_strip_spec_witness :
    ∃ s : String,
      ((⟨true, some "origin/main", ""⟩ : CmdOutput).stdout = some s ∨
        (⟨true, some "x", ""⟩ : CmdOutput).stdout = some s) ∧
      (∃ k, (rustTrim s).data = repList ("origin/".data) k ++ ("main" : String).data) ∧
      ("origin/".data).isPrefixOf ("main" : String).data = false :=
  git_main_branch_strip_spec ⟨true, some "origin/main", ""⟩ ⟨true, some "x", ""⟩
    ⟨true, some "x", ""⟩ "main" (by decide)

/-- C2 counterexample: the claim says `git_diff_uncommitted` returns an
error if and only if one of the two diff commands exits with non-zero
status.  With a zero-exit staged-diff command whose stdout does not decode
as UTF-8 text, both success flags are `true`, yet an error is returned. -/
theorem git_diff_uncommitted_decode_error_counterexample :
    (git_diff_uncommitted ⟨true, none, "boom"⟩ ⟨true, some "", ""⟩).1 =
      Outcome.err "invalid utf-8" ∧
    (⟨true, none, "boom"⟩ : CmdOutput).success = true ∧
    (⟨true, some "", ""⟩ : CmdOutput).success = true :=
  ⟨rfl, rfl, rfl⟩

/-- C2 (amended): `git_diff_uncommitted` returns the staged tier (trimmed,
lock files excluded by the issued argv) whenever it is non-empty after
trimming, without running the second command; only when the staged tier is
empty does it run and return the working-tree tier under the same
exclusion; an empty result from both tiers is a success; and it returns an
error exactly when a diff command it issues exits with non-zero status or
the consumed stdout fails to decode as text. -/
theorem git_diff_uncommitted_tier_spec (o1 o2 : CmdOutput) :
    (∀ s1, o1.success = true → o1.stdout = some s1 → rustTrim s1 ≠ "" →
      git_diff_uncommitted o1 o2 = (.ok (rustTrim s1), ⟨[cmdDiffCached], [], [], [], []⟩)) ∧
    (∀ s1 s2, o1.success = true → o1.stdout = some s1 → rustTrim s1 = "" →
      o2.success = true → o2.stdout = some s2 →
      git_diff_uncommitted o1 o2 =
        (.ok (rustTrim s2), ⟨[cmdDiffCached, cmdDiffWorking], [], [], [], []⟩)) ∧
    (o1.success = false →
      git_diff_uncommitted o1 o2 =
        (.err "Failed to get diff", ⟨[cmdDiffCached], [], [o1.stderr], [], []⟩)) ∧
    (∀ s1, o1.success = true → o1.stdout = some s1 → rustTrim s1 = "" → o2.success = false →
      git_diff_uncommitted o1 o2 =
        (.err "Failed to get diff", ⟨[cmdDiffCached, cmdDiffWorking], [], [o2.stderr], [], []⟩)) ∧
    ((∃ e, (git_diff_uncommitted o1 o2).1 = Outcome.err e) ↔
      (o1.success = false ∨ (o1.success = true ∧ o1.stdout = none) ∨
        (o1.success = true ∧ ∃ s1, o1.stdout = some s1 ∧ rustTrim s1 = "" ∧
          (o2.success = false ∨ o2.stdout = none)))) := by
  refine ⟨?_, ?_, ?_, ?_, ?_⟩
  · intro s1 h1 ho1 hne
    simp [git_diff_uncommitted, h1, ho1, hne]
  · intro s1 s2 h1 ho1 he h2 ho2
    simp [git_diff_uncommitted, h1, ho1, he, h2, ho2]
  · intro h1
    simp [git_diff_uncommitted, h1]
  · intro s1 h1 ho1 he h2
    simp [git_diff_uncommitted, h1, ho1, he, h2]
  · cases h1 : o1.success with
    | false => simp [git_diff_uncommitted, h1]
    | true =>
        cases ho1 : o1.stdout with
        | none => simp [git_diff_uncommitted, h1, ho1]
        | some s1 =>
            by_cases he : rustTrim s1 = ""
            · cases h2 : o2.success with
              | false => simp [git_diff_uncommitted, h1, ho1, he, h2]
              | true =>
                  cases ho2 : o2.stdout with
                  | none => simp [git_diff_uncommitted, h1, ho1, he, h2, ho2]
                  | some s2 => simp [git_diff_uncommitted, h1, ho1, he, h2, ho2]
            · simp [git_diff_uncommitted, h1, ho1, he]

/-- C2 witness: the amended theorem's tiers applied at concrete inputs: a
non-empty staged diff is returned from the first tier alone, and an empty
staged diff falls through to the working-tree tier. -/
theorem git_diff_uncommitted_tier_spec_witness :
    git_diff_uncommitted ⟨true, some "diff text", "⟩"⟩ ⟨false, none, "x"⟩ =
      (.ok (rustTrim "diff text"), ⟨[cmdDiffCached], [], [], [], []⟩) ∧
    git_diff_uncommitted ⟨true, some " ", ""⟩ ⟨true, some "tree diff", ""⟩ =
      (.ok (rustTrim "tree diff"), ⟨[cmdDiffCached, cmdDiffWorking], [], [], [], []⟩) :=
  ⟨(git_diff_uncommitted_tier_spec ⟨true, some "diff text", "⟩"⟩ ⟨false, none, "x"⟩).1
      "diff text" rfl rfl (by decide),
    (git_diff_uncommitted_tier_spec ⟨true, some " ", ""⟩ ⟨true, some "tree diff", ""⟩).2.1
      " " "tree diff" rfl rfl (by decide) rfl rfl⟩

/-- C3: for the sentinel branch name `"HEAD"` (with the renderer
succeeding; the failing renderer is C9), `git_ensure_not_detached_head`
logs an ERROR event, renders the blocking fatal message, and terminates
the process with the non-zero status 1, having issued no command; for
every other branch name it is a no-op returning `Ok(())` with no command,
log, render or chdir, whatever the renderer would have done. -/
theorem git_ensure_not_detached_head_spec (branch : String) (render : Except String Unit) :
    (branch = "HEAD" →
      git_ensure_not_detached_head (Except.ok ()) branch =
        (Outcome.exited 1,
          ⟨[], [("ERROR", detachedMsg)], [], [("Error", detachedMsg)], []⟩) ∧ (1 : Nat) ≠ 0) ∧
    (branch ≠ "HEAD" →
      git_ensure_not_detached_head render branch = (Outcome.ok (), Effects.empty)) := by
  constructor
  · intro h
    subst h
    exact ⟨rfl, by decide⟩
  · intro h
    have hb : (branch == "HEAD") = false := beq_eq_false_iff_ne.mpr h
    simp [git_ensure_not_detached_head, hb]

/-- C3 witness: the spec applied at the sentinel (renderer succeeding) and
at the branch name `"feature"` (with a renderer that would fail, to show
the renderer is never consulted there). -/
theorem git_ensure_not_detached_head_spec_witness :
    (git_ensure_not_detached_head (Except.ok ()) "HEAD" =
        (Outcome.exited 1,
          ⟨[], [("ERROR", detachedMsg)], [], [("Error", detachedMsg)], []⟩) ∧ (1 : Nat) ≠ 0) ∧
    git_ensure_not_detached_head (Except.error "render failed") "feature" =
      (Outcome.ok (), Effects.empty) :=
  ⟨(git_ensure_not_detached_head_spec "HEAD" (Except.ok ())).1 rfl,
    (git_ensure_not_detached_head_spec "feature" (Except.error "render failed")).2 (by decide)⟩

/-- C4: `git_fetch_main` issues exactly one pull when the current branch
equals the main branch, and exactly one fetch with the two-sided refspec
`main:main` otherwise — never both — and it returns an error exactly when
the issued command exits with non-zero status. -/
theorem git_fetch_main_spec (o : CmdOutput) (current main : String) :
    (current = main → (git_fetch_main o current main).2.cmds = [cmdPull]) ∧
    (current ≠ main → (git_fetch_main o current main).2.cmds = [cmdFetch main]) ∧
    ((∃ e, (git_fetch_main o current main).1 = Outcome.err e) ↔ o.success = false) := by
  refine ⟨?_, ?_, ?_⟩
  · intro h
    have hb : (current == main) = true := beq_iff_eq.mpr h
    cases hs : o.success <;> simp [git_fetch_main, hb, hs]
  · intro h
    have hb : (current == main) = false := beq_eq_false_iff_ne.mpr h
    cases hs : o.success <;> simp [git_fetch_main, hb, hs]
  · cases hb : (current == main) <;> cases hs : o.success <;> simp [git_fetch_main, hb, hs]

/-- C4 witness: the spec applied on-main with a failing pull and off-main
with a succeeding fetch. -/
theorem git_fetch_main_spec_witness :
    (git_fetch_main ⟨false, none, "x"⟩ "main" "main").2.cmds = [cmdPull] ∧
    (git_fetch_main ⟨true, some "", ""⟩ "feature" "main").2.cmds = [cmdFetch "main"] :=
  ⟨(git_fetch_main_spec ⟨false, none, "x"⟩ "main" "main").1 rfl,
    (git_fetch_main_spec ⟨true, some "", ""⟩ "feature" "main").2.1 (by decide)⟩

/-- C5: once staging succeeded, the commit command issued by
`git_stage_and_commit` carries the message `trim(title)` when details are
absent and `trim(title) ++ "\n\n" ++ trim(details)` when present. -/
theorem git_stage_and_commit_message_spec (o1 o2 : CmdOutput) (title : String)
    (details : Option String) (h1 : o1.success = true) :
    (git_stage_and_commit o1 o2 title details).2.cmds =
      [cmdAdd, cmdCommit (match details with
        | none => rustTrim title
        | some d => rustTrim title ++ "\n\n" ++ rustTrim d)] := by
  cases h2 : o2.success <;> cases details <;>
    simp [git_stage_and_commit, mkCommitMessage, h1, h2]

/-- C5 witness: the message spec applied to the concrete title
`" Fix bug "` with details `" Detail line "` present. -/
theorem git_stage_and_commit_message_spec_witness :
    (git_stage_and_commit ⟨true, some "", ""⟩ ⟨true, some "", ""⟩
        " Fix bug " (some " Detail line ")).2.cmds =
      [cmdAdd, cmdCommit (rustTrim " Fix bug " ++ "\n\n" ++ rustTrim " Detail line ")] :=
  git_stage_and_commit_message_spec ⟨true, some "", ""⟩ ⟨true, some "", ""⟩
    " Fix bug " (some " Detail line ") rfl

/-- C6 counterexample: two concrete violations of the claim.  First, a
zero-exit current-branch read whose stdout does not decode as text makes
the operation return an error with nothing forwarded to the sink (the `?`
on `String::from_utf8` propagates before any `add_error` call).  Second, a
non-zero first default-branch read in `git_main_branch` forwards nothing
to the sink, ends in success, and is followed by two further commands (the
auto-detect fallback and the retried read) rather than an error result. -/
theorem post_guard_error_forwarding_counterexample :
    ((git_current_branch ⟨true, none, "boom"⟩).1 = Outcome.err "invalid utf-8" ∧
      (git_current_branch ⟨true, none, "boom"⟩).2.errors = []) ∧
    ((git_main_branch ⟨false, none, "no ref"⟩ ⟨true, some "", ""⟩
        ⟨true, some "origin/main", ""⟩).1 = Outcome.ok "main" ∧
      (git_main_branch ⟨false, none, "no ref"⟩ ⟨true, some "", ""⟩
        ⟨true, some "origin/main", ""⟩).2.errors = [] ∧
      (git_main_branch ⟨false, none, "no ref"⟩ ⟨true, some "", ""⟩
        ⟨true, some "origin/main", ""⟩).2.cmds =
          [cmdOriginHead, cmdSetHead, cmdOriginHead]) :=
  ⟨⟨rfl, rfl⟩, ⟨by decide, rfl, rfl⟩⟩

/-- C6 (amended): across all post-guard operations — the uncommitted diff
(both tiers), the cross-branch diff, the current-branch read, main-branch
resolution, sync, stage-and-commit, push, and publish — whenever an
external invocation returns a non-zero status, the captured stderr is
forwarded to the sink and the operation returns an error result without
attempting further commands, with one exception: the first default-branch
read of `git_main_branch`, whose failure forwards nothing and instead
triggers the auto-detect fallback and the retried read; and whenever the
consumed stdout fails to decode as text, the operation returns an error
result without attempting further commands, but forwards nothing to the
sink. -/
theorem post_guard_error_forwarding_spec (o o2 o3 : CmdOutput)
    (mainb cur title body : String) (details : Option String) :
    (o.success = false →
      git_diff_uncommitted o o2 =
        (Outcome.err "Failed to get diff", ⟨[cmdDiffCached], [], [o.stderr], [], []⟩)) ∧
    (o.success = true → o.stdout = none →
      git_diff_uncommitted o o2 =
        (Outcome.err "invalid utf-8", ⟨[cmdDiffCached], [], [], [], []⟩)) ∧
    (∀ s1, o.success = true → o.stdout = some s1 → rustTrim s1 = "" → o2.success = false →
      git_diff_uncommitted o o2 =
        (Outcome.err "Failed to get diff",
          ⟨[cmdDiffCached, cmdDiffWorking], [], [o2.stderr], [], []⟩)) ∧
    (∀ s1, o.success = true → o.stdout = some s1 → rustTrim s1 = "" → o2.success = true →
      o2.stdout = none →
      git_diff_uncommitted o o2 =
        (Outcome.err "invalid utf-8", ⟨[cmdDiffCached, cmdDiffWorking], [], [], [], []⟩)) ∧
    (o.success = false →
      git_diff_between_branches o mainb cur =
        (Outcome.err "Failed to get diff between branches",
          ⟨[cmdDiffBranches mainb cur], [], [o.stderr], [], []⟩)) ∧
    (o.success = true → o.stdout = none →
      git_diff_between_branches o mainb cur =
        (Outcome.err "invalid utf-8", ⟨[cmdDiffBranches mainb cur], [], [], [], []⟩)) ∧
    (o.success = false →
      git_current_branch o =
        (Outcome.err "Failed to get current branch",
          ⟨[cmdCurrentBranch], [], [o.stderr], [], []⟩)) ∧
    (o.success = true → o.stdout = none →
      git_current_branch o =
        (Outcome.err "invalid utf-8", ⟨[cmdCurrentBranch], [], [], [], []⟩)) ∧
    (o.success = false → o2.success = true → o3.success = true →
      (git_main_branch o o2 o3).2.errors = [] ∧
      (git_main_branch o o2 o3).2.cmds = [cmdOriginHead, cmdSetHead, cmdOriginHead]) ∧
    (o.success = false → o2.success = false →
      git_main_branch o o2 o3 =
        (Outcome.err "Failed to set origin HEAD",
          ⟨[cmdOriginHead, cmdSetHead],
            [("INFO", "Setting origin HEAD automatically...")], [o2.stderr], [], []⟩)) ∧
    (o.success = false → o2.success = true → o3.success = false →
      git_main_branch o o2 o3 =
        (Outcome.err "Failed to determine main branch",
          ⟨[cmdOriginHead, cmdSetHead, cmdOriginHead],
            [("INFO", "Setting origin HEAD automatically...")], [o3.stderr], [], []⟩)) ∧
    (o.success = true → o.stdout = none →
      git_main_branch o o2 o3 =
        (Outcome.err "invalid utf-8", ⟨[cmdOriginHead], [], [], [], []⟩)) ∧
    (o.success = false → cur = mainb →
      git_fetch_main o cur mainb =
        (Outcome.err "Failed to pull from origin", ⟨[cmdPull], [], [o.stderr], [], []⟩)) ∧
    (o.success = false → cur ≠ mainb →
      git_fetch_main o cur mainb =
        (Outcome.err "Failed to fetch main branch",
          ⟨[cmdFetch mainb], [], [o.stderr], [], []⟩)) ∧
    (o.success = false →
      git_stage_and_commit o o2 title details =
        (Outcome.err "Failed to stage changes", ⟨[cmdAdd], [], [o.stderr], [], []⟩)) ∧
    (o.success = true → o2.success = false →
      git_stage_and_commit o o2 title details =
        (Outcome.err "Failed to commit changes",
          ⟨[cmdAdd, cmdCommit (mkCommitMessage title details)],
            [("INFO", "Staged all changes")], [o2.stderr], [], []⟩)) ∧
    (o.success = false →
      git_push_branch o cur =
        (Outcome.err "Failed to push branch", ⟨[cmdPush cur], [], [o.stderr], [], []⟩)) ∧
    (o.success = false →
      create_pull_request o title body =
        (Outcome.err "Failed to create pull request",
          ⟨[cmdPrCreate title body], [], [o.stderr], [], []⟩)) := by
  refine ⟨?_, ?_, ?_, ?_, ?_, ?_, ?_, ?_, ?_, ?_, ?_, ?_, ?_, ?_, ?_, ?_, ?_, ?_⟩
  · intro h
    simp [git_diff_uncommitted, h]
  · intro h ho
    simp [git_diff_uncommitted, h, ho]
  · intro s1 h ho he h2
    simp [git_diff_uncommitted, h, ho, he, h2]
  · intro s1 h ho he h2 ho2
    simp [git_diff_uncommitted, h, ho, he, h2, ho2]
  · intro h
    simp [git_diff_between_branches, h]
  · intro h ho
    simp [git_diff_between_branches, h, ho]
  · intro h
    simp [git_current_branch, h]
  · intro h ho
    simp [git_current_branch, h, ho]
  · intro h h2 h3
    cases ho : o3.stdout <;>
      simp [git_main_branch, mainBranchFinish, h, h2, h3, ho]
  · intro h h2
    simp [git_main_branch, h, h2]
  · intro h h2 h3
    simp [git_main_branch, h, h2, h3]
  · intro h ho
    simp [git_main_branch, mainBranchFinish, h, ho]
  · intro h hc
    have hb : (cur == mainb) = true := beq_iff_eq.mpr hc
    simp [git_fetch_main, hb, h]
  · intro h hc
    have hb : (cur == mainb) = false := beq_eq_false_iff_ne.mpr hc
    simp [git_fetch_main, hb, h]
  · intro h
    simp [git_stage_and_commit, h]
  · intro h h2
    simp [git_stage_and_commit, h, h2]
  · intro h
    simp [git_push_branch, h]
  · intro h
    simp [create_pull_request, h]

/-- C6 witness: the amended spec applied at concrete runs: a failing
current-branch read (stderr forwarded), a non-decodable staged-diff read
(nothing forwarded, second tier not attempted), a rejected push (stderr
forwarded), and the exceptional failed first default-branch read (nothing
forwarded, fallback and retry issued). -/
theorem post_guard_error_forwarding_spec_witness :
    git_current_branch ⟨false, none, "fatal"⟩ =
      (Outcome.err "Failed to get current branch",
        ⟨[cmdCurrentBranch], [], ["fatal"], [], []⟩) ∧
    git_diff_uncommitted ⟨true, none, "boom"⟩ ⟨true, some "", ""⟩ =
      (Outcome.err "invalid utf-8", ⟨[cmdDiffCached], [], [], [], []⟩) ∧
    git_push_branch ⟨false, none, "rejected"⟩ "feature" =
      (Outcome.err "Failed to push branch", ⟨[cmdPush "feature"], [], ["rejected"], [], []⟩) ∧
    ((git_main_branch ⟨false, none, "fatal"⟩ ⟨true, some "", ""⟩
        ⟨true, some "origin/main", ""⟩).2.errors = [] ∧
      (git_main_branch ⟨false, none, "fatal"⟩ ⟨true, some "", ""⟩
        ⟨true, some "origin/main", ""⟩).2.cmds = [cmdOriginHead, cmdSetHead, cmdOriginHead]) :=
  ⟨(post_guard_error_forwarding_spec ⟨false, none, "fatal"⟩ ⟨true, some "", ""⟩
      ⟨true, some "origin/main", ""⟩ "main" "feature" "t" "b" none).2.2.2.2.2.2.1 rfl,
    (post_guard_error_forwarding_spec ⟨true, none, "boom"⟩ ⟨true, some "", ""⟩
      ⟨true, some "", ""⟩ "main" "feature" "t" "b" none).2.1 rfl rfl,
    (post_guard_error_forwarding_spec ⟨false, none, "rejected"⟩ ⟨true, some "", ""⟩
      ⟨true, some "", ""⟩ "main" "feature" "t" "b" none).2.2.2.2.2.2.2.2.2.2.2.2.2.2.2.2.1 rfl,
    (post_guard_error_forwarding_spec ⟨false, none, "fatal"⟩ ⟨true, some "", ""⟩
      ⟨true, some "origin/main", ""⟩ "main" "feature" "t" "b" none).2.2.2.2.2.2.2.2.1
      rfl rfl rfl⟩

/-- C7: `git_main_branch` runs the auto-detect fallback at most once, and
only after the first default-branch read failed; a run that enters the
fallback issues the fallback and then exactly one retry of the read (so
the command trace is read–fallback–read, or stops at the fallback when it
fails); it returns an error when the fallback fails and when the retried
read fails. -/
theorem git_main_branch_fallback_spec (o1 o2 o3 : CmdOutput) :
    ((git_main_branch o1 o2 o3).2.cmds.count cmdSetHead ≤ 1) ∧
    (o1.success = true → (git_main_branch o1 o2 o3).2.cmds = [cmdOriginHead]) ∧
    (o1.success = false → o2.success = true →
      (git_main_branch o1 o2 o3).2.cmds = [cmdOriginHead, cmdSetHead, cmdOriginHead]) ∧
    (o1.success = false → o2.success = false →
      git_main_branch o1 o2 o3 =
        (Outcome.err "Failed to set origin HEAD",
          ⟨[cmdOriginHead, cmdSetHead],
            [("INFO", "Setting origin HEAD automatically...")], [o2.stderr], [], []⟩)) ∧
    (o1.success = false → o2.success = true → o3.success = false →
      git_main_branch o1 o2 o3 =
        (Outcome.err "Failed to determine main branch",
          ⟨[cmdOriginHead, cmdSetHead, cmdOriginHead],
            [("INFO", "Setting origin HEAD automatically...")], [o3.stderr], [], []⟩)) := by
  refine ⟨?_, ?_, ?_, ?_, ?_⟩
  · cases h1 : o1.success with
    | true =>
        cases ho : o1.stdout <;>
          simp [git_main_branch, mainBranchFinish, h1, ho] <;> decide
    | false =>
        cases h2 : o2.success with
        | false => (simp [git_main_branch, h1, h2]; decide)
        | true =>
            cases h3 : o3.success with
            | false => (simp [git_main_branch, h1, h2, h3]; decide)
            | true =>
                cases ho : o3.stdout <;>
                  simp [git_main_branch, mainBranchFinish, h1, h2, h3, ho] <;> decide
  · intro h1
    cases ho : o1.stdout <;> simp [git_main_branch, mainBranchFinish, h1, ho]
  · intro h1 h2
    cases h3 : o3.success with
    | false => simp [git_main_branch, h1, h2, h3]
    | true => cases ho : o3.stdout <;> simp [git_main_branch, mainBranchFinish, h1, h2, h3, ho]
  · intro h1 h2
    simp [git_main_branch, h1, h2]
  · intro h1 h2 h3
    simp [git_main_branch, h1, h2, h3]

/-- C7 witness: the fallback spec applied to a run whose first read fails,
whose fallback succeeds, and whose retried read fails. -/
theorem git_main_branch_fallback_spec_witness :
    (git_main_branch ⟨false, none, "a"⟩ ⟨true, some "", ""⟩ ⟨false, none, "b"⟩).2.cmds =
      [cmdOriginHead, cmdSetHead, cmdOriginHead] ∧
    git_main_branch ⟨false, none, "a"⟩ ⟨true, some "", ""⟩ ⟨false, none, "b"⟩ =
      (Outcome.err "Failed to determine main branch",
        ⟨[cmdOriginHead, cmdSetHead, cmdOriginHead],
          [("INFO", "Setting origin HEAD automatically...")], ["b"], [], []⟩) :=
  ⟨(git_main_branch_fallback_spec ⟨false, none, "a"⟩ ⟨true, some "", ""⟩
      ⟨false, none, "b"⟩).2.2.1 rfl rfl,
    (git_main_branch_fallback_spec ⟨false, none, "a"⟩ ⟨true, some "", ""⟩
      ⟨false, none, "b"⟩).2.2.2.2 rfl rfl rfl⟩

/-- C8: when the repository-top-level command fails, `git_cd_to_repo_root`
records the captured stderr through the sink and still returns `Ok(())`
without changing directory; and the working directory is ever changed only
when the command succeeded. -/
theorem git_cd_to_repo_root_failure_spec (o : CmdOutput) (chdir : String → Except String Unit) :
    (o.success = false →
      git_cd_to_repo_root o chdir =
        (Outcome.ok (), ⟨[cmdToplevel], [], [o.stderr], [], []⟩)) ∧
    ((git_cd_to_repo_root o chdir).2.chdirs ≠ [] → o.success = true) := by
  constructor
  · intro h
    simp [git_cd_to_repo_root, h]
  · intro hne
    cases h : o.success with
    | true => rfl
    | false =>
        exfalso
        exact hne (by simp [git_cd_to_repo_root, h])

/-- C8 witness: the asymmetric-failure spec applied to a failing
top-level query (with a chdir that would succeed, showing it is not
reached). -/
theorem git_cd_to_repo_root_failure_spec_witness :
    git_cd_to_repo_root ⟨false, none, "fatal: not a git repository"⟩ (fun _ => Except.ok ()) =
      (Outcome.ok (), ⟨[cmdToplevel], [], ["fatal: not a git repository"], [], []⟩) :=
  (git_cd_to_repo_root_failure_spec ⟨false, none, "fatal: not a git repository"⟩
    (fun _ => Except.ok ())).1 rfl

/-- C9: on the detached-head path, when `render_message` returns an error,
`git_ensure_not_detached_head` propagates that error to its caller instead
of terminating the process, with the ERROR event already logged and
nothing rendered. -/
theorem git_ensure_not_detached_head_render_error_spec (e : String) :
    git_ensure_not_detached_head (Except.error e) "HEAD" =
      (Outcome.err e, ⟨[], [("ERROR", detachedMsg)], [], [], []⟩) :=
  rfl

/-- C10: in every run of `git_stage_and_commit`, the stage-all command is
the first command issued; and when staging succeeded but the commit
command fails, the function returns an error having issued exactly the
stage and commit commands — no command undoing the staging is issued, so
the staged state persists. -/
theorem git_stage_and_commit_order_spec (o1 o2 : CmdOutput) (title : String)
    (details : Option String) :
    ((git_stage_and_commit o1 o2 title details).2.cmds.head? = some cmdAdd) ∧
    (o1.success = true → o2.success = false →
      (git_stage_and_commit o1 o2 title details).1 = Outcome.err "Failed to commit changes" ∧
      (git_stage_and_commit o1 o2 title details).2.cmds =
        [cmdAdd, cmdCommit (mkCommitMessage title details)]) := by
  constructor
  · cases h1 : o1.success <;> cases h2 : o2.success <;>
      simp [git_stage_and_commit, h1, h2]
  · intro h1 h2
    constructor <;> simp [git_stage_and_commit, h1, h2]

/-- C10 witness: the ordering spec applied to a run where staging succeeds
and the commit is rejected. -/
theorem git_stage_and_commit_order_spec_witness :
    (git_stage_and_commit ⟨true, some "", ""⟩ ⟨false, none, "hook rejected"⟩
        "Fix bug" none).1 = Outcome.err "Failed to commit changes" ∧
    (git_stage_and_commit ⟨true, some "", ""⟩ ⟨false, none, "hook rejected"⟩
        "Fix bug" none).2.cmds = [cmdAdd, cmdCommit (mkCommitMessage "Fix bug" none)] :=
  (git_stage_and_commit_order_spec ⟨true, some "", ""⟩ ⟨false, none, "hook rejected"⟩
    "Fix bug" none).2 rfl rfl
